import Mathlib

/-!
Shallow embedding of the miniclangpp recursive-descent C parser
(src/src/parser.cpp and src/src/parse_statements.cpp) and proofs about the
claims on its specification.

Modelling conventions:
* The lexer (lexer.h/lexer.cpp, outside src/) is a token list with a cursor;
  `get_current_token` peeks, `get_next_token` advances and returns the new
  current token, matching the interface the parser calls.
* C `std::string` values are `List Char`; `std::string::operator[]` at the
  size index yields the null character, matching C++11 semantics.
* Fallible paths (C `error_token`, `expect_and_get_next_token` failures, and
  `assert` failures) are `Except ParseError`.
* Unbounded C loops and recursion take a `fuel : Nat` bound; running out of
  fuel is the distinct error `ParseError.OutOfFuel`, never reached on the
  concrete inputs evaluated below.
* Pointer-linked `next` chains of AST nodes are Lean lists, in the same
  order.
-/

namespace Miniclang

/-- Token kinds, exactly those the two source files under src/ reference. -/
inductive TokenType where
  | Number | Identifier | Eof
  | Asterisk | ForwardSlash | Modulo | Plus | Minus | Tilde | Bang | Ampersand
  | LParen | RParen | LBracket | RBracket | LBrace | RBrace
  | Semicolon | Comma | Equals | Ellipsis
  | IntegerSuffixl | IntegerSuffixL | IntegerSuffixu | IntegerSuffixU
  | IntegerSuffixll | IntegerSuffixLL
  | IntegerSuffixull | IntegerSuffixuLL | IntegerSuffixllu | IntegerSuffixLLu
  | IntegerSuffixUll | IntegerSuffixULL | IntegerSuffixllU | IntegerSuffixLLU
  | Const | Restrict | Volatile | Atomic
  | Typedef | Extern | Static | ThreadLocal | Auto | Register
  | AlignAs | Inline | NoReturn
  | Void | Char | Short | Int | Long | Float | Double
  | Signed | Unsigned | Bool | Complex
  | Struct | Enum | Union
  | Case | Default | If | Switch | While | For | Do
  | GoTo | Continue | Break | Return
  deriving DecidableEq, Repr

/-- A token: kind plus lexeme text (C `Token { TokenType type; std::string string; }`). -/
structure Token where
  type : TokenType
  string : List Char
  deriving DecidableEq, Repr

/-- The token stream with its cursor: the embedding of the C `Lexer`. -/
structure Lexer where
  tokens : List Token
  index : Nat
  deriving DecidableEq, Repr

/-- Reading past the end of input yields the end-of-file token. -/
def eofToken : Token := ⟨TokenType.Eof, []⟩

/-- C `get_current_token`: peek the current token without advancing. -/
def get_current_token (l : Lexer) : Token :=
  l.tokens.getD l.index eofToken

/-- Advance the cursor by one token. -/
def Lexer.advance (l : Lexer) : Lexer :=
  ⟨l.tokens, l.index + 1⟩

/-- C `get_next_token`: advance, then return the new current token. -/
def get_next_token (l : Lexer) : Token × Lexer :=
  let l' := l.advance
  (get_current_token l', l')

/-- Parse-abort conditions: `error_token` diagnostics, failed token
expectations, failed C `assert`s, and the embedding's fuel bound. -/
inductive ParseError where
  | ErrorToken (msg : List Char)
  | ExpectFailed (msg : List Char)
  | AssertFailed (msg : List Char)
  | OutOfFuel
  deriving DecidableEq, Repr

/-- C `expect_and_get_next_token`: the current token must have the given
kind; then advance and return the new current token. -/
def expect_and_get_next_token (l : Lexer) (t : TokenType) (msg : List Char) :
    Except ParseError (Token × Lexer) :=
  if (get_current_token l).type = t then .ok (get_next_token l)
  else .error (.ExpectFailed msg)

/-- Modelled from the spec: the `DataType` enumeration lives in type.h, which
is not under src/. parser.cpp stores `Void`, `Int`, `UnsignedInt`, `Long`,
`LongLong` and `UnsignedLongLong`; the suffix table of spec §4.3 additionally
requires unsigned long (`ul`/`lu`) to be representable, so `UnsignedLong` is
included. -/
inductive DataType where
  | Void | Int | UnsignedInt | Long | UnsignedLong | LongLong | UnsignedLongLong
  deriving DecidableEq, Repr

/-- AST node kinds referenced by the two source files under src/
(`ASTNodeType::Void`, `NumericConstant`, `Declaration`, `Multiplication`),
plus `IdentifierRef` used by the spec-modelled expression parser (spec §3
lists an identifier-reference node kind). -/
inductive ASTNodeType where
  | Void | NumericConstant | Declaration | Multiplication | IdentifierRef
  deriving DecidableEq, Repr

/-- The embedding of C `ASTNode`: kind tag, data type, the `data_as` integer
payload (one `Nat`, wrapped modulo the destination width where the C type is
unsigned), and the `lhs`/`rhs` children. `malloc`-uninitialized fields are
`none`/`0`. The `next` chain is represented by the lists the parsers return,
not by a field. -/
inductive ASTNode where
  | mk (type : ASTNodeType) (data_type : DataType) (value : Nat)
       (lhs rhs : Option ASTNode)

/-- Kind tag of a node. -/
def ASTNode.nodeType : ASTNode → ASTNodeType
  | .mk t _ _ _ _ => t

/-- Data type of a node. -/
def ASTNode.data_type : ASTNode → DataType
  | .mk _ dt _ _ _ => dt

/-- Integer payload of a node (the C `data_as` union). -/
def ASTNode.value : ASTNode → Nat
  | .mk _ _ v _ _ => v

/-- C `new_ast_node`: kind set to the argument, `data_type` set to `Void`,
everything else malloc-garbage (modelled as the neutral values). -/
def new_ast_node (t : ASTNodeType) : ASTNode :=
  .mk t DataType.Void 0 none none

/-- C `new_binary_expression_node`: a node of the given kind with `lhs` and
`rhs` set. -/
def new_binary_expression_node (t : ASTNodeType) (lhs rhs : ASTNode) : ASTNode :=
  .mk t DataType.Void 0 (some lhs) (some rhs)

/-- The scope chain: each C `Scope` owns a set of ordinary identifiers (the
C member `variables`, called `vars` here because `variables` is a Lean
command name), a set of typedef names (`typedef_names`) and a nullable
`parent_scope` pointer; the sets are name lists here. -/
inductive Scope where
  | mk (vars : List (List Char)) (typedef_names : List (List Char))
       (parent_scope : Option Scope)

/-- Ordinary-identifier set of a scope (the C member `variables`). -/
def Scope.vars : Scope → List (List Char)
  | .mk v _ _ => v

/-- Typedef-name set of a scope. -/
def Scope.typedef_names : Scope → List (List Char)
  | .mk _ t _ => t

/-- Parent link of a scope. -/
def Scope.parent_scope : Scope → Option Scope
  | .mk _ _ p => p

/-- C `variable_in_scope` (parser.cpp): walk the chain outward, true at the
first scope whose ordinary set contains the name. -/
def variable_in_scope (variable_name : List Char) : Scope → Bool
  | .mk vars _ parent =>
    if vars.contains variable_name then true
    else match parent with
      | none => false
      | some p => variable_in_scope variable_name p

/-- C `typedef_name_in_scope` (parser.cpp): walk the chain outward, true at
the first scope whose typedef set contains the name. Note it consults only
the typedef sets, never `variables`. -/
def typedef_name_in_scope (type_name : List Char) : Scope → Bool
  | .mk _ tds parent =>
    if tds.contains type_name then true
    else match parent with
      | none => false
      | some p => typedef_name_in_scope type_name p

/-- C `hex_char_to_int`; the trailing `assert(false)` on a non-hex-digit is
the error case. -/
def hex_char_to_int (c : Char) : Except ParseError Nat :=
  if '0' ≤ c ∧ c ≤ '9' then .ok (c.toNat - '0'.toNat)
  else if 'a' ≤ c ∧ c ≤ 'f' then .ok (c.toNat - 'a'.toNat + 10)
  else if 'A' ≤ c ∧ c ≤ 'F' then .ok (c.toNat - 'A'.toNat + 10)
  else .error (.AssertFailed "hex_char_to_int got invalid hex digit".toList)

/-- C `decimal_to_int`, with its range assert. -/
def decimal_to_int (c : Char) : Except ParseError Nat :=
  if '0' ≤ c ∧ c ≤ '9' then .ok (c.toNat - '0'.toNat)
  else .error (.AssertFailed "decimal_to_int digit out of range".toList)

/-- C `octal_to_int`, with its range assert. -/
def octal_to_int (c : Char) : Except ParseError Nat :=
  if '0' ≤ c ∧ c ≤ '7' then .ok (c.toNat - '0'.toNat)
  else .error (.AssertFailed "octal_to_int digit out of range".toList)

/-- C `binary_to_int`, with its range assert. -/
def binary_to_int (c : Char) : Except ParseError Nat :=
  if '0' ≤ c ∧ c ≤ '1' then .ok (c.toNat - '0'.toNat)
  else .error (.AssertFailed "binary_to_int digit out of range".toList)

/-- The digit-accumulation loop of `parse_number`:
`for (; index < n; index++) value = value * base + f(s[index])`, here run on
the digit list after the prefix has been dropped. -/
def accumulate_digits (f : Char → Except ParseError Nat) (base : Nat)
    (cs : List Char) : Except ParseError Nat :=
  cs.foldlM (fun v c => do
    let d ← f c
    pure (v * base + d)) 0

/-- The destination data type chosen by `parse_number`'s suffix switch,
listing exactly the C `case` labels: l/L give long, u/U unsigned int, ll/LL
long long, the eight ull spellings unsigned long long, and everything else
falls to the default signed-int case. The switch has no case producing
unsigned long. -/
def integer_suffix_data_type : TokenType → DataType
  | .IntegerSuffixl | .IntegerSuffixL => .Long
  | .IntegerSuffixu | .IntegerSuffixU => .UnsignedInt
  | .IntegerSuffixll | .IntegerSuffixLL => .LongLong
  | .IntegerSuffixull | .IntegerSuffixuLL | .IntegerSuffixllu
  | .IntegerSuffixLLu | .IntegerSuffixUll | .IntegerSuffixULL
  | .IntegerSuffixllU | .IntegerSuffixLLU => .UnsignedLongLong
  | _ => .Int

/-- Width wrapping of the accumulated value per destination: the C unsigned
accumulators wrap modulo their width (unsigned 32 bits, unsigned long long
64); overflow of the signed accumulators is C undefined behaviour and is
left unwrapped here. -/
def data_type_wrap : DataType → Nat → Nat
  | .UnsignedInt, v => v % 2 ^ 32
  | .UnsignedLongLong, v => v % 2 ^ 64
  | _, v => v

/-- C `parse_number` (parser.cpp): the current token must be a number; the
base and digit mapping and the index after the prefix come from the
`0x`/`0b`/leading-`0` prefix test; the switch on the token after the number
(`get_next_token`) picks the destination type per `integer_suffix_data_type`
and each case runs the same digit-accumulation loop into that type. -/
def parse_number (l : Lexer) : Except ParseError (ASTNode × Lexer) :=
  let current_token := get_current_token l
  if current_token.type = TokenType.Number then
    let s := current_token.string
    let c0 := s.getD 0 (Char.ofNat 0)
    let c1 := s.getD 1 (Char.ofNat 0)
    let pick : Nat × Nat × (Char → Except ParseError Nat) :=
      if c0 = '0' then
        if c1 = 'x' then (16, 2, hex_char_to_int)
        else if c1 = 'b' then (2, 2, binary_to_int)
        else (8, 1, octal_to_int)
      else (10, 0, decimal_to_int)
    let (suffix_token, l') := get_next_token l
    let data_type := integer_suffix_data_type suffix_token.type
    (accumulate_digits pick.2.2 pick.1 (s.drop pick.2.1)).map fun v =>
      (ASTNode.mk .NumericConstant data_type (data_type_wrap data_type v) none none, l')
  else
    .error (.AssertFailed "Parsing number but initial token type is not number".toList)

/-- C `parse_primary_expression` (parser.cpp): advances first, then switches
on the new current token. The `Identifier` case has no body and falls
through into the `Number` case, so identifiers are handed to `parse_number`;
every other kind hits `assert(false)`. -/
def parse_primary_expression (l : Lexer) (scope : Scope) :
    Except ParseError (ASTNode × Lexer) :=
  let _ := scope
  let (tok, l') := get_next_token l
  match tok.type with
  | .Identifier | .Number => parse_number l'
  | _ => .error (.AssertFailed "Default case in parse_primary_expression".toList)

/-- Modelled from the spec: `parse_cast_expression` is only declared, never
defined, under src/. Per spec §4.3 a cast expression with no cast, unary or
postfix operators is its primary expression, and for a numeric-constant
operand that is exactly what src's `parse_number` parses, so the model
parses the numeric literal at the current token. -/
def parse_cast_expression (l : Lexer) : Except ParseError (ASTNode × Lexer) :=
  parse_number l

/-- C `parse_multiplicative_expression` (parser.cpp): parse a cast
expression, then `for (;;) switch (get_next_token(lexer)->type)`: the
`Asterisk` case immediately returns a `Multiplication` node (no looping);
`ForwardSlash` and `Modulo` have no bodies and fall through to the default,
which returns the left operand alone. Note the switch advances the lexer
before examining the token. -/
def parse_multiplicative_expression (l : Lexer) :
    Except ParseError (ASTNode × Lexer) := do
  let (cast_expr, l) ← parse_cast_expression l
  let (tok, l) := get_next_token l
  match tok.type with
  | .Asterisk => do
    let (rhs, l) ← parse_cast_expression l
    pure (new_binary_expression_node .Multiplication cast_expr rhs, l)
  | _ => pure (cast_expr, l)

/-- C `token_is_type_qualifier` (parser.cpp). -/
def token_is_type_qualifier (token : Token) : Bool :=
  match token.type with
  | .Const | .Restrict | .Volatile | .Atomic => true
  | _ => false

/-- C `token_is_storage_class_specifier` (parser.cpp). -/
def token_is_storage_class_specifier (token : Token) : Bool :=
  match token.type with
  | .Typedef | .Extern | .Static | .ThreadLocal | .Auto | .Register => true
  | _ => false

/-- C `token_is_alignment_specifier` (parser.cpp). -/
def token_is_alignment_specifier (token : Token) : Bool :=
  token.type == TokenType.AlignAs

/-- C `token_is_function_specifier` (parser.cpp). -/
def token_is_function_specifier (token : Token) : Bool :=
  token.type == TokenType.Inline || token.type == TokenType.NoReturn

/-- C `token_is_type_specifier` (parser.cpp): the keyword type specifiers,
and in the default case any name in the scope chain's typedef sets. -/
def token_is_type_specifier (token : Token) (scope : Scope) : Bool :=
  match token.type with
  | .Void | .Char | .Short | .Int | .Long | .Float | .Double
  | .Signed | .Unsigned | .Bool | .Complex | .Atomic
  | .Struct | .Enum | .Union => true
  | _ => typedef_name_in_scope token.string scope

/-- C `token_is_declaration_specifier` (parser.cpp): the disjunction of the
five category tests, in the source's order. -/
def token_is_declaration_specifier (token : Token) (scope : Scope) : Bool :=
  token_is_storage_class_specifier token ||
  token_is_type_specifier token scope ||
  token_is_type_qualifier token ||
  token_is_function_specifier token ||
  token_is_alignment_specifier token

/-- Modelled from the spec: the `Declaration` / `DeclarationSpecifierFlags`
accumulator type lives in type.h, which is not under src/. Per spec §3 it is
built incrementally from the specifier tokens folded into it; the model
records those folded tokens in order, which determines the spec's descriptor. -/
structure DeclarationSpecifierFlags where
  specifiers : List Token
  deriving DecidableEq, Repr

/-- Modelled from the spec: `update_declaration` (type.cpp, not under src/)
folds the classified current token into the accumulator. -/
def update_declaration (token : Token) (d : DeclarationSpecifierFlags) :
    DeclarationSpecifierFlags :=
  ⟨d.specifiers ++ [token]⟩

/-- C `parse_declaration_specifiers` (parser.cpp): starting from the current
token, fold tokens while `token_is_declaration_specifier` holds, advancing
once per folded token; stop at the first token matching no category. The
loop is total because each step advances the cursor, so it is written as
recursion on the remaining token count. -/
def parse_declaration_specifiers_loop (scope : Scope) (d : DeclarationSpecifierFlags)
    (l : Lexer) (remaining : Nat) : DeclarationSpecifierFlags × Lexer :=
  match remaining with
  | 0 => (d, l)
  | r + 1 =>
    let current_token := get_current_token l
    if token_is_declaration_specifier current_token scope then
      let (_, l') := get_next_token l
      parse_declaration_specifiers_loop scope (update_declaration current_token d) l' r
    else (d, l)

/-- C `parse_declaration_specifiers`, entered at the current token; past the
end of input the current token is `Eof`, which is no specifier, so
`tokens.length - index` steps always suffice. -/
def parse_declaration_specifiers (l : Lexer) (scope : Scope) :
    DeclarationSpecifierFlags × Lexer :=
  parse_declaration_specifiers_loop scope ⟨[]⟩ l (l.tokens.length - l.index)

/-- The embedding of C `Object` as parser.cpp's one-argument declarator path
uses it: `new_object()` mallocs it uninitialized and only `name` is ever
assigned. -/
structure Object where
  name : List Char
  deriving DecidableEq, Repr

/-- C `parse_type_qualifier_list` (parser.cpp): advance while the current
token is a type qualifier (the local `Declaration` it folds into is
discarded by the caller). Qualifiers are keywords only, so the loop always
stops by the end of input; it is recursion on the remaining token count. -/
def parse_type_qualifier_list_loop (l : Lexer) (remaining : Nat) : Lexer :=
  match remaining with
  | 0 => l
  | r + 1 =>
    if token_is_type_qualifier (get_current_token l) then
      parse_type_qualifier_list_loop l.advance r
    else l

/-- C `parse_type_qualifier_list`, entered at the current token. -/
def parse_type_qualifier_list (l : Lexer) : Lexer :=
  parse_type_qualifier_list_loop l (l.tokens.length - l.index)

/-- C `parse_pointer` (parser.cpp): expect a `*`; if the token after it is
another `*`, recurse; else if it is a type qualifier, take the qualifier
list. Each recursive call consumes the expected `*`, bounded by `fuel`. -/
def parse_pointer (fuel : Nat) (l : Lexer) : Except ParseError Lexer :=
  match fuel with
  | 0 => .error .OutOfFuel
  | fuel + 1 => do
    let (token_after_asterisk, l) ←
      expect_and_get_next_token l .Asterisk "Parsing pointer, expected *".toList
    if token_after_asterisk.type = TokenType.Asterisk then
      parse_pointer fuel l
    else if token_is_type_qualifier token_after_asterisk then
      pure (parse_type_qualifier_list l)
    else
      pure l

mutual

/-- C `parse_declarator` (parser.cpp, the one-argument version): if the
current token is `*`, advance past it and call `parse_pointer` (which
expects the current token to be `*` again); then `parse_direct_declarator`.
The C function has no return statement, so its `Object*` result is garbage:
modelled as `none` while the lexer effects and errors are kept. -/
def parse_declarator (fuel : Nat) (l : Lexer) :
    Except ParseError (Option Object × Lexer) :=
  match fuel with
  | 0 => .error .OutOfFuel
  | fuel + 1 => do
    let current_token := get_current_token l
    let l ←
      if current_token.type = TokenType.Asterisk then do
        let (_, l) := get_next_token l
        parse_pointer fuel l
      else
        pure l
    let (_, l) ← parse_direct_declarator fuel l none
    pure ((none : Option Object), l)

/-- C `parse_direct_declarator` (parser.cpp): on `(`, recursively parse a
declarator and expect `)`. Then, on an identifier, build the object and
switch on the next token: `;`/`,` return the object; `[` has no body and
falls through into the `(` case, whose inner switch returns the object on
an identifier or `)` and otherwise exits into the outer default, the
`error_token` FIXME diagnostic. When the (possibly re-assigned) current
token is not an identifier the function falls off its end: garbage result,
modelled as `none`. -/
def parse_direct_declarator (fuel : Nat) (l : Lexer) (object : Option Object) :
    Except ParseError (Option Object × Lexer) :=
  match fuel with
  | 0 => .error .OutOfFuel
  | fuel + 1 => do
    let current_token := get_current_token l
    let (current_token, l) ←
      if current_token.type = TokenType.LParen then do
        let (_, l) := get_next_token l
        let (_, l) ← parse_declarator fuel l
        expect_and_get_next_token l .RParen
          "parse_direct_declarator expected RParen".toList
      else
        pure (current_token, l)
    if current_token.type = TokenType.Identifier then
      if object.isSome then
        .error (.AssertFailed
          "parse_direct_declarator: found identifier but object* is not null".toList)
      else
        let obj : Object := ⟨current_token.string⟩
        if obj.name = [] then
          .error (.AssertFailed
            "parse_direct_declarator: assigned null name string to new object".toList)
        else
          let (t2, l) := get_next_token l
          match t2.type with
          | .Semicolon | .Comma => pure (some obj, l)
          | .LBracket | .LParen =>
            let (t3, l) := get_next_token l
            match t3.type with
            | .Identifier | .RParen => pure (some obj, l)
            | _ =>
              .error (.ErrorToken
                "FIXME: default case in parse_direct_declarator".toList)
          | _ =>
            .error (.ErrorToken
              "FIXME: default case in parse_direct_declarator".toList)
    else
      pure ((none : Option Object), l)

end

/-- C `parse_init_declarator` (parser.cpp): a fresh `Declaration` node, a
declarator, and — when the current token is `=` — `parse_initializer`, whose
C body is empty, so it has no effect here. The node is returned unconnected
to the parsed object, as in the source. -/
def parse_init_declarator (fuel : Nat) (l : Lexer) :
    Except ParseError (ASTNode × Lexer) := do
  let ast_node := new_ast_node .Declaration
  let (_, l) ← parse_declarator fuel l
  pure (ast_node, l)

/-- The init-declarator loop of C `parse_declaration`:
`while (current != Semicolon) { next = parse_init_declarator; ... }`,
collecting the `next`-linked nodes as a list. -/
def parse_declaration_loop (fuel : Nat) (l : Lexer) (acc : List ASTNode) :
    Except ParseError (List ASTNode × Lexer) :=
  match fuel with
  | 0 => .error .OutOfFuel
  | fuel + 1 =>
    if (get_current_token l).type = TokenType.Semicolon then
      pure (acc, l)
    else do
      let (node, l) ← parse_init_declarator fuel l
      parse_declaration_loop fuel l (acc ++ [node])

/-- C `parse_declaration` (parser.cpp): assert the current token starts a
declaration specifier, fold the specifiers, then parse init-declarators
until a `;` (left unconsumed). The C function returns `ast_node->next`, the
head of the chain built by the loop (uninitialized memory if the loop ran
zero times); the chain is the returned list. -/
def parse_declaration (fuel : Nat) (l : Lexer) (scope : Scope) :
    Except ParseError (List ASTNode × Lexer) :=
  if token_is_declaration_specifier (get_current_token l) scope then
    let (_, l) := parse_declaration_specifiers l scope
    parse_declaration_loop fuel l []
  else
    .error (.AssertFailed
      "parse_declaration: starting but current token is not a declaration specifier".toList)

/-- Replace the `rhs` child of a node (the C assignment `ast_node->rhs = ...`). -/
def ASTNode.set_rhs (n : ASTNode) (r : Option ASTNode) : ASTNode :=
  match n with
  | .mk t dt v lhs _ => .mk t dt v lhs r

/-- Modelled from the spec: `parse_expression` is called by
`parse_jump_statement` but not defined under src/. Per spec §4.3 an
expression with no operators is its primary operand: an identifier (recorded
as an identifier-reference node and consumed) or a numeric constant (parsed
by src's `parse_number`). -/
def parse_expression (l : Lexer) (scope : Scope) :
    Except ParseError (ASTNode × Lexer) :=
  let _ := scope
  match (get_current_token l).type with
  | .Identifier => .ok (ASTNode.mk .IdentifierRef .Void 0 none none, l.advance)
  | .Number => parse_number l
  | _ => .error (.ErrorToken "expected expression".toList)

/-- The shared tail of C `parse_jump_statement`'s cases (`Continue`/`Break`
labels, reached by fall-through from `GoTo` and `Return` too): expect a `;`
and advance, then return the node. -/
def jump_semicolon_tail (node : ASTNode) (l : Lexer) :
    Except ParseError (ASTNode × Lexer) := do
  let (_, l) ← expect_and_get_next_token l .Semicolon
    "Expected semicolon after jump statement\n".toList
  pure (node, l)

/-- The `Return` case body of C `parse_jump_statement`: advance, bind an
expression as `rhs` unless the current token is `;`, then fall through to
the semicolon tail. -/
def jump_return_case (node : ASTNode) (l : Lexer) (scope : Scope) :
    Except ParseError (ASTNode × Lexer) :=
  let (_, l) := get_next_token l
  if (get_current_token l).type ≠ TokenType.Semicolon then do
    let (return_value_node, l) ← parse_expression l scope
    jump_semicolon_tail (node.set_rhs (some return_value_node)) l
  else
    jump_semicolon_tail node l

/-- C `parse_jump_statement` (parse_statements.cpp). The
`get_next_token(lexer)` written before the first `case` label of its switch
is unreachable dead code, so the `GoTo` case inspects the current token —
still the `goto` keyword itself — and `error_token`s when it is not an
identifier; had that check passed, control would fall through into the
`Return` case, which in turn falls through to the `;` expectation shared
with `Continue`/`Break`. Any other leading token asserts false. -/
def parse_jump_statement (l : Lexer) (scope : Scope) :
    Except ParseError (ASTNode × Lexer) :=
  let ast_node := new_ast_node .Void
  match (get_current_token l).type with
  | .GoTo =>
    let identifier_token := get_current_token l
    if identifier_token.type ≠ TokenType.Identifier then
      .error (.ErrorToken "Expected identifier after goto\n".toList)
    else
      jump_return_case ast_node l scope
  | .Return => jump_return_case ast_node l scope
  | .Continue | .Break => jump_semicolon_tail ast_node l
  | _ => .error (.AssertFailed "parse_jump_statement: default case".toList)

/-- C `parse_labeled_statement` (parse_statements.cpp): a stub that builds a
`Void` node, peeks the current token and returns without consuming input. -/
def parse_labeled_statement (l : Lexer) (scope : Scope) :
    Except ParseError (List ASTNode × Lexer) :=
  let _ := scope
  let ast_node := new_ast_node .Void
  .ok ([ast_node], l)

/-- C `parse_expression_statement` (parse_statements.cpp): the same
non-consuming stub. -/
def parse_expression_statement (l : Lexer) (scope : Scope) :
    Except ParseError (List ASTNode × Lexer) :=
  let _ := scope
  let ast_node := new_ast_node .Void
  .ok ([ast_node], l)

/-- C `parse_selection_statement` (parse_statements.cpp): the same
non-consuming stub. -/
def parse_selection_statement (l : Lexer) (scope : Scope) :
    Except ParseError (List ASTNode × Lexer) :=
  let _ := scope
  let ast_node := new_ast_node .Void
  .ok ([ast_node], l)

/-- C `parse_iteration_statement` (parse_statements.cpp): the same
non-consuming stub. -/
def parse_iteration_statement (l : Lexer) (scope : Scope) :
    Except ParseError (List ASTNode × Lexer) :=
  let _ := scope
  let ast_node := new_ast_node .Void
  .ok ([ast_node], l)

/-- The statement-dispatch table of C `parse_statement`
(parse_statements.cpp lines 44-71): which statement parser the switch on the
current token's kind selects. It is a function of that kind alone. -/
inductive StatementRoute where
  | Labeled | Compound | Selection | Iteration | Jump | ExpressionStatement
  deriving DecidableEq, Repr

/-- The case analysis of `parse_statement`'s switch, token kind by token
kind, exactly as the source groups the labels. -/
def statement_dispatch : TokenType → StatementRoute
  | .Identifier | .Case | .Default => .Labeled
  | .LBrace => .Compound
  | .If | .Switch => .Selection
  | .While | .For | .Do => .Iteration
  | .GoTo | .Continue | .Break | .Return => .Jump
  | _ => .ExpressionStatement

mutual

/-- C `parse_statement` (parse_statements.cpp): dispatch on the current
token's kind (the `Void` node it allocates first is never used on the
switch's paths). The jump statement's single node is a one-element chain. -/
def parse_statement (fuel : Nat) (l : Lexer) (scope : Scope) :
    Except ParseError (List ASTNode × Lexer) :=
  match fuel with
  | 0 => .error .OutOfFuel
  | fuel + 1 =>
    match statement_dispatch (get_current_token l).type with
    | .Labeled => parse_labeled_statement l scope
    | .Compound => parse_compound_statement fuel l scope
    | .Selection => parse_selection_statement l scope
    | .Iteration => parse_iteration_statement l scope
    | .Jump => do
      let (n, l) ← parse_jump_statement l scope
      pure ([n], l)
    | .ExpressionStatement => parse_expression_statement l scope

/-- C `parse_compound_statement` (parse_statements.cpp): assert `{`,
advance, then the item loop; the enclosing scope argument is handed on
unchanged — the function constructs no scope of its own. -/
def parse_compound_statement (fuel : Nat) (l : Lexer) (scope : Scope) :
    Except ParseError (List ASTNode × Lexer) :=
  match fuel with
  | 0 => .error .OutOfFuel
  | fuel + 1 =>
    if (get_current_token l).type = TokenType.LBrace then
      parse_compound_items fuel l.advance scope []
    else
      .error (.AssertFailed "parse_compound_statement: current token is not LBrace".toList)

/-- The item loop of C `parse_compound_statement`: until the current token
is `}`, parse a declaration when the current token is a declaration
specifier in `scope` — the very scope the block was entered with — and a
statement otherwise, linking the resulting chains in order; then consume the
`}`. -/
def parse_compound_items (fuel : Nat) (l : Lexer) (scope : Scope)
    (acc : List ASTNode) : Except ParseError (List ASTNode × Lexer) :=
  match fuel with
  | 0 => .error .OutOfFuel
  | fuel + 1 =>
    if (get_current_token l).type = TokenType.RBrace then
      .ok (acc, l.advance)
    else do
      let (nodes, l) ←
        if token_is_declaration_specifier (get_current_token l) scope then
          parse_declaration fuel l scope
        else
          parse_statement fuel l scope
      parse_compound_items fuel l scope (acc ++ nodes)

end

/-- Modelled from the spec: the `FundamentalType` tags of type.h (not under
src/); parse_statements.cpp matches on `FundamentalType::Function`, and the
spec's §3 Type lists the fundamental and derived kinds. -/
inductive FundamentalType where
  | Void | Char | Int | Long | Float | Double | Pointer | Array | Function
  deriving DecidableEq, Repr

/-- Modelled from the spec: the interned `Type` of §3/§6 (type.h is not
under src/) — a fundamental type or a pointer-to / array-of / function-of
derivation (parameter lists are not tracked; no claim depends on them). -/
inductive CType where
  | fundamental (t : FundamentalType)
  | pointer_to (t : CType)
  | array_of (t : CType) (size : Option Nat)
  | function_of (ret : CType)
  deriving DecidableEq, Repr

/-- The `fundamental_type` field the C code reads off a `Type`: the tag of
the outermost constructor. -/
def CType.fundamental_type : CType → FundamentalType
  | .fundamental t => t
  | .pointer_to _ => .Pointer
  | .array_of _ _ => .Array
  | .function_of _ => .Function

/-- Modelled from the spec: `fundamental_type_from_declaration` (type.cpp,
not under src/) resolves the folded specifiers to the one fundamental-type
tag of spec §3; the first keyword type specifier decides it. -/
def fundamental_type_from_declaration (d : DeclarationSpecifierFlags) :
    FundamentalType :=
  match d.specifiers.find? (fun t =>
      match t.type with
      | .Void | .Char | .Int | .Long | .Float | .Double => true
      | _ => false) with
  | some t =>
    match t.type with
    | .Void => .Void
    | .Char => .Char
    | .Long => .Long
    | .Float => .Float
    | .Double => .Double
    | _ => .Int
  | none => .Int

/-- C `declaration_to_fundamental_type` (parse_statements.cpp): resolve the
specifiers to a fundamental tag and intern it
(`get_fundamental_type_pointer`, modelled by the `CType` constructor). -/
def declaration_to_fundamental_type (d : DeclarationSpecifierFlags) : CType :=
  .fundamental (fundamental_type_from_declaration d)

/-- The named entity the translation-unit driver receives from its
(three-argument) declarator call: name and assembled type, per spec §3
Entity. -/
structure DeclaredObject where
  name : List Char
  ctype : CType
  deriving DecidableEq, Repr

/-- Pointer-prefix step of the spec's declarator algorithm (§4.4 step 1):
count the leading `*` tokens, skipping each one's optional type-qualifier
list; recursion on the remaining token count. -/
def count_pointer_wraps (l : Lexer) (remaining : Nat) (acc : Nat) : Nat × Lexer :=
  match remaining with
  | 0 => (acc, l)
  | r + 1 =>
    if (get_current_token l).type = TokenType.Asterisk then
      count_pointer_wraps (parse_type_qualifier_list l.advance) r (acc + 1)
    else (acc, l)

/-- Parameter-list consumption for the modelled function suffix: tokens up
to and including the closing `)`, failing at end of input. -/
def skip_parameter_list (fuel : Nat) (l : Lexer) : Except ParseError Lexer :=
  match fuel with
  | 0 => .error .OutOfFuel
  | fuel + 1 =>
    match (get_current_token l).type with
    | .RParen => .ok l.advance
    | .Eof => .error (.ErrorToken "UnbalancedParenthesis".toList)
    | _ => skip_parameter_list fuel l.advance

/-- A recorded declarator suffix of §4.4 step 3: an array bound or a
function parameter list. -/
inductive DeclSuffix where
  | array (size : Option Nat)
  | function
  deriving DecidableEq, Repr

/-- Apply one suffix wrap to the type built so far. -/
def DeclSuffix.wrap : DeclSuffix → CType → CType
  | .array size, t => .array_of t size
  | .function, t => .function_of t

/-- Suffix step of the spec's declarator algorithm (§4.4 step 3): collect
the `[size?]` and `(parameters)` suffixes left to right. The parameter list
is consumed up to its `)` without recording the parameter types (no claim
depends on them); array bounds accept an optional numeric-constant token. -/
def parse_declarator_suffixes (fuel : Nat) (l : Lexer) (acc : List DeclSuffix) :
    Except ParseError (List DeclSuffix × Lexer) :=
  match fuel with
  | 0 => .error .OutOfFuel
  | fuel + 1 =>
    match (get_current_token l).type with
    | .LBracket =>
      let l := l.advance
      let (size, l) :=
        if (get_current_token l).type = TokenType.Number then
          ((accumulate_digits decimal_to_int 10 (get_current_token l).string).toOption,
           l.advance)
        else (none, l)
      if (get_current_token l).type = TokenType.RBracket then
        parse_declarator_suffixes fuel l.advance (acc ++ [DeclSuffix.array size])
      else .error (.ErrorToken "UnbalancedParenthesis".toList)
    | .LParen => do
      let l ← skip_parameter_list fuel l.advance
      parse_declarator_suffixes fuel l (acc ++ [DeclSuffix.function])
    | _ => .ok (acc, l)

/-- Assembly helper: `n` pointer-to wraps around a type (§4.4 step 1's
chain, applied innermost). -/
def apply_pointer_wraps : Nat → CType → CType
  | 0, t => t
  | n + 1, t => .pointer_to (apply_pointer_wraps n t)

/-- Modelled from the spec: the three-argument
`parse_declarator(lexer, base-type, scope)` that `parse_translation_unit`
calls is not under src/ (parser.cpp defines only the one-argument version).
Per §4.4: (1) record the leading pointer wraps; (2) the direct declarator's
attachment point must be an identifier, else `ExpectedIdentifier`
(parenthesized nested declarators are not modelled — no claim settled
against this model uses them); (3) collect the array/function suffixes; (4)
assemble so that suffixes bind tighter than the leading pointers —
`int *a[3]` is array-of-3 pointer-to-int: the pointer wraps apply to the
base first, then the suffixes wrap that result, first suffix outermost. -/
def parse_declarator3 (fuel : Nat) (l : Lexer) (base : CType) (scope : Scope) :
    Except ParseError (DeclaredObject × Lexer) :=
  let _ := scope
  let (n_ptr, l) := count_pointer_wraps l (l.tokens.length - l.index) 0
  let tok := get_current_token l
  if tok.type = TokenType.Identifier then do
    let (suffixes, l) ← parse_declarator_suffixes fuel l.advance []
    let pointed := apply_pointer_wraps n_ptr base
    pure (⟨tok.string, suffixes.foldr DeclSuffix.wrap pointed⟩, l)
  else
    .error (.ErrorToken "ExpectedIdentifier".toList)

/-- Modelled from the spec: `parse_rest_of_declaration` (not under src/)
finishes the `init-declarator-list` of §4.6 — the remaining declarators and
initializers up to and including the terminating `;`. The model consumes up
to the `;` (failing at end of input), which is all the driver observes. -/
def parse_rest_of_declaration (l : Lexer) (remaining : Nat) :
    Except ParseError Lexer :=
  match remaining with
  | 0 => .error (.ErrorToken "expected semicolon before end of input".toList)
  | r + 1 =>
    match (get_current_token l).type with
    | .Semicolon => .ok l.advance
    | .Eof => .error (.ErrorToken "expected semicolon before end of input".toList)
    | _ => parse_rest_of_declaration l.advance r

/-- C `ExternalDeclarationType` (parse_statements.cpp). -/
inductive ExternalDeclarationType where
  | FunctionDefinition | Declaration
  deriving DecidableEq, Repr

/-- The embedding of C `ExternalDeclaration`: its tag and root AST node;
the declared object and the function body the C code hangs off the node
(`ast_node->object`, `object->function_body`) are fields here, and the
`next` chain is the list the driver returns. -/
structure ExternalDeclaration where
  type : ExternalDeclarationType
  object : DeclaredObject
  function_body : List ASTNode

/-- The head of each driver iteration (parse_statements.cpp lines 205-217):
require a declaration specifier, fold the specifiers, resolve the base
type, and parse one declarator against it. -/
def parse_up_to_declarator (fuel : Nat) (l : Lexer) (scope : Scope) :
    Except ParseError (DeclaredObject × Lexer) :=
  if token_is_declaration_specifier (get_current_token l) scope then
    let (declaration_specifiers, l) := parse_declaration_specifiers l scope
    let fundamental_type_ptr := declaration_to_fundamental_type declaration_specifiers
    parse_declarator3 fuel l fundamental_type_ptr scope
  else
    .error (.ErrorToken "Expected declaration specifier\n".toList)

/-- One iteration of the C driver loop (parse_statements.cpp lines 205-235):
after the declarator, the switch on the object's fundamental type makes this
a `FunctionDefinition` — body parsed as a compound statement — exactly when
that type is `Function` and the current token is `{`; every other path falls
to `parse_rest_of_declaration` and records a `Declaration`. -/
def parse_external_declaration (fuel : Nat) (l : Lexer) (scope : Scope) :
    Except ParseError (ExternalDeclaration × Lexer) :=
  match parse_up_to_declarator fuel l scope with
  | .error e => .error e
  | .ok (object, l) =>
    if object.ctype.fundamental_type = FundamentalType.Function ∧
        (get_current_token l).type = TokenType.LBrace then
      match parse_compound_statement fuel l scope with
      | .error e => .error e
      | .ok (function_body, l) => .ok (⟨.FunctionDefinition, object, function_body⟩, l)
    else
      match parse_rest_of_declaration l (l.tokens.length + 1 - l.index) with
      | .error e => .error e
      | .ok l => .ok (⟨.Declaration, object, []⟩, l)

/-- The driver loop of C `parse_translation_unit`: until the current token
is `Eof`, parse one external declaration and append it, preserving source
order. -/
def parse_translation_unit_loop (fuel : Nat) (l : Lexer) (scope : Scope)
    (acc : List ExternalDeclaration) :
    Except ParseError (List ExternalDeclaration) :=
  match fuel with
  | 0 => .error .OutOfFuel
  | fuel + 1 =>
    if (get_current_token l).type = TokenType.Eof then .ok acc
    else do
      let (d, l) ← parse_external_declaration fuel l scope
      parse_translation_unit_loop fuel l scope (acc ++ [d])

/-- C `parse_translation_unit` (parse_statements.cpp): a fresh lexer whose
initial `get_next_token` leaves the cursor on the first token (index 0
here), the global scope with empty name sets and no parent, and the driver
loop. -/
def parse_translation_unit (fuel : Nat) (tokens : List Token) :
    Except ParseError (List ExternalDeclaration) :=
  parse_translation_unit_loop fuel ⟨tokens, 0⟩ (Scope.mk [] [] none) []

/-- Token stream of `int f(int x) { return x; }`. -/
def fnDefTokens : List Token :=
  [⟨.Int, "int".toList⟩, ⟨.Identifier, "f".toList⟩, ⟨.LParen, "(".toList⟩,
   ⟨.Int, "int".toList⟩, ⟨.Identifier, "x".toList⟩, ⟨.RParen, ")".toList⟩,
   ⟨.LBrace, "\x7b".toList⟩, ⟨.Return, "return".toList⟩, ⟨.Identifier, "x".toList⟩,
   ⟨.Semicolon, ";".toList⟩, ⟨.RBrace, "\x7d".toList⟩]

/-- Token stream of `int f(int x);`. -/
def fnDeclTokens : List Token :=
  [⟨.Int, "int".toList⟩, ⟨.Identifier, "f".toList⟩, ⟨.LParen, "(".toList⟩,
   ⟨.Int, "int".toList⟩, ⟨.Identifier, "x".toList⟩, ⟨.RParen, ")".toList⟩,
   ⟨.Semicolon, ";".toList⟩]

/-- The scope-and-variable layout of claim C3's scenario: a typedef name `T`
in the outer (global) scope, an ordinary variable `T` in the inner scope. -/
def shadowInnerScope : Scope :=
  Scope.mk ["T".toList] [] (some (Scope.mk [] ["T".toList] none))

theorem integer_suffix_no_unsigned_long (t : TokenType) :
    integer_suffix_data_type t ≠ DataType.UnsignedLong := by
  cases t <;> simp [integer_suffix_data_type]

/-- Claim C2 (code_bug evidence): no execution of `parse_number` can return
an unsigned long — the suffix switch has no case for any `ul`/`lu`
spelling, so every path lands in l/L (long), u/U (unsigned int), ll/LL
(long long), the ull family (unsigned long long) or the signed-int default.
The positive rows of the suffix table hold where cases exist: `0b101` is
int 5 and `017` is int 15 (octal). -/
theorem parse_number_has_no_unsigned_long_result :
    (∀ l : Lexer,
      (parse_number l).toOption.map (fun p => p.1.data_type) ≠
        some DataType.UnsignedLong) ∧
    parse_number ⟨[⟨.Number, "0b101".toList⟩, ⟨.Semicolon, ";".toList⟩], 0⟩ =
      .ok (ASTNode.mk .NumericConstant .Int 5 none none,
           ⟨[⟨.Number, "0b101".toList⟩, ⟨.Semicolon, ";".toList⟩], 1⟩) ∧
    parse_number ⟨[⟨.Number, "017".toList⟩, ⟨.Semicolon, ";".toList⟩], 0⟩ =
      .ok (ASTNode.mk .NumericConstant .Int 15 none none,
           ⟨[⟨.Number, "017".toList⟩, ⟨.Semicolon, ";".toList⟩], 1⟩) := by
  refine ⟨?_, rfl, rfl⟩
  intro l
  unfold parse_number
  by_cases h : (get_current_token l).type = TokenType.Number
  · simp only [if_pos h]
    rcases hgn : get_next_token l with ⟨s, l'⟩
    dsimp only
    generalize accumulate_digits _ _ _ = e
    cases e <;>
      simp [Except.map, Except.toOption, ASTNode.data_type, integer_suffix_no_unsigned_long]
  · simp only [if_neg h]
    simp [Except.toOption]

/-- Claim C1 (code_bug evidence): the declarator parser aborts on both of
the spec's examples before assembling any type. For `*a[3]` (the declarator
of `int *a[3];`), `parse_declarator` consumes the `*` and then calls
`parse_pointer`, which expects the current token to be `*` again and fails;
`(*a)[3]` reaches the same failure through the parenthesized declarator. -/
theorem pointer_declarator_aborts_before_type_assembly :
    parse_declarator 10
      ⟨[⟨.Asterisk, "*".toList⟩, ⟨.Identifier, "a".toList⟩, ⟨.LBracket, "[".toList⟩,
        ⟨.Number, "3".toList⟩, ⟨.RBracket, "]".toList⟩, ⟨.Semicolon, ";".toList⟩], 0⟩ =
      .error (.ExpectFailed "Parsing pointer, expected *".toList) ∧
    parse_declarator 10
      ⟨[⟨.LParen, "(".toList⟩, ⟨.Asterisk, "*".toList⟩, ⟨.Identifier, "a".toList⟩,
        ⟨.RParen, ")".toList⟩, ⟨.LBracket, "[".toList⟩, ⟨.Number, "3".toList⟩,
        ⟨.RBracket, "]".toList⟩, ⟨.Semicolon, ";".toList⟩], 0⟩ =
      .error (.ExpectFailed "Parsing pointer, expected *".toList) := ⟨rfl, rfl⟩

/-- Claim C3 (code_bug evidence): with typedef `T` in the outer scope and a
variable `T` in the inner scope, the inner-scope classification still takes
`T` as a type specifier: `typedef_name_in_scope` walks every ancestor's
typedef set and never consults the ordinary-identifier sets, so the
variable `T` cannot shadow the typedef. -/
theorem shadowed_typedef_classified_as_type_specifier :
    variable_in_scope "T".toList shadowInnerScope = true ∧
    typedef_name_in_scope "T".toList shadowInnerScope = true ∧
    token_is_type_specifier ⟨.Identifier, "T".toList⟩ shadowInnerScope = true ∧
    token_is_declaration_specifier ⟨.Identifier, "T".toList⟩ shadowInnerScope = true :=
  ⟨rfl, rfl, rfl, rfl⟩

/-- Claim C4 (code_bug evidence): the multiplicative level neither loops nor
builds nodes for `/` and `%`, and its switch advances past the operator
token before reading it: `2 * 3` returns the bare constant 2 with the
cursor left on `3` and no `Multiplication` node, and `6 / 3` likewise
returns the bare constant 6. -/
theorem multiplicative_parser_drops_operators :
    parse_multiplicative_expression
      ⟨[⟨.Number, "2".toList⟩, ⟨.Asterisk, "*".toList⟩, ⟨.Number, "3".toList⟩,
        ⟨.Semicolon, ";".toList⟩], 0⟩ =
      .ok (ASTNode.mk .NumericConstant .Int 2 none none,
           ⟨[⟨.Number, "2".toList⟩, ⟨.Asterisk, "*".toList⟩, ⟨.Number, "3".toList⟩,
             ⟨.Semicolon, ";".toList⟩], 2⟩) ∧
    parse_multiplicative_expression
      ⟨[⟨.Number, "6".toList⟩, ⟨.ForwardSlash, "/".toList⟩, ⟨.Number, "3".toList⟩,
        ⟨.Semicolon, ";".toList⟩], 0⟩ =
      .ok (ASTNode.mk .NumericConstant .Int 6 none none,
           ⟨[⟨.Number, "6".toList⟩, ⟨.ForwardSlash, "/".toList⟩, ⟨.Number, "3".toList⟩,
             ⟨.Semicolon, ";".toList⟩], 2⟩) := ⟨rfl, rfl⟩

/-- Claim C5 (confirmed): `int f(int x) { return x; }` parses to exactly one
`FunctionDefinition` entry and `int f(int x);` to exactly one `Declaration`
entry, and in general an external declaration is recorded as a
`FunctionDefinition` exactly when the declared object's fundamental type is
`Function` and the token current after the declarator is `{`. -/
theorem translation_unit_function_definition_dispatch :
    (parse_translation_unit 50 fnDefTokens).map (fun ds => ds.map ExternalDeclaration.type) =
      .ok [ExternalDeclarationType.FunctionDefinition] ∧
    (parse_translation_unit 50 fnDeclTokens).map (fun ds => ds.map ExternalDeclaration.type) =
      .ok [ExternalDeclarationType.Declaration] ∧
    ∀ (fuel : Nat) (l : Lexer) (scope : Scope) (d : ExternalDeclaration) (l' : Lexer),
      parse_external_declaration fuel l scope = .ok (d, l') →
      (d.type = ExternalDeclarationType.FunctionDefinition ↔
        ∃ obj l₁, parse_up_to_declarator fuel l scope = .ok (obj, l₁) ∧
          obj.ctype.fundamental_type = FundamentalType.Function ∧
          (get_current_token l₁).type = TokenType.LBrace) := by
  refine ⟨rfl, rfl, ?_⟩
  intro fuel l scope d l' h
  unfold parse_external_declaration at h
  cases hup : parse_up_to_declarator fuel l scope with
  | error e => rw [hup] at h; exact absurd h (by simp)
  | ok p =>
    obtain ⟨obj, l₁⟩ := p
    rw [hup] at h
    dsimp only at h
    by_cases hc : obj.ctype.fundamental_type = FundamentalType.Function ∧
        (get_current_token l₁).type = TokenType.LBrace
    · rw [if_pos hc] at h
      cases hbody : parse_compound_statement fuel l₁ scope with
      | error e => rw [hbody] at h; exact absurd h (by simp)
      | ok q =>
        obtain ⟨body, l₂⟩ := q
        rw [hbody] at h
        have hd : d = ⟨.FunctionDefinition, obj, body⟩ :=
          (Prod.mk.inj (Except.ok.inj h)).1.symm
        subst hd
        exact ⟨fun _ => ⟨obj, l₁, rfl, hc.1, hc.2⟩, fun _ => rfl⟩
    · rw [if_neg hc] at h
      cases hrest : parse_rest_of_declaration l₁ (l₁.tokens.length + 1 - l₁.index) with
      | error e => rw [hrest] at h; exact absurd h (by simp)
      | ok l₂ =>
        rw [hrest] at h
        have hd : d = ⟨.Declaration, obj, []⟩ :=
          (Prod.mk.inj (Except.ok.inj h)).1.symm
        subst hd
        constructor
        · intro hft
          exact absurd hft (by simp)
        · rintro ⟨obj', l₁', hup', hfn, hbrace⟩
          have heq := Prod.mk.inj (Except.ok.inj hup')
          refine absurd ⟨?_, ?_⟩ hc
          · rw [heq.1]; exact hfn
          · rw [heq.2]; exact hbrace

/-- Witness for claim C5: the dispatch equivalence applied to the concrete
function definition `int f(int x) { return x; }`, whose single external
declaration is a `FunctionDefinition`. -/
theorem translation_unit_function_definition_dispatch_witness :
    parse_external_declaration 30 ⟨fnDefTokens, 0⟩ (Scope.mk [] [] none) =
      .ok (⟨.FunctionDefinition, ⟨"f".toList, .function_of (.fundamental .Int)⟩,
            [ASTNode.mk .Void .Void 0 none (some (ASTNode.mk .IdentifierRef .Void 0 none none))]⟩,
           ⟨fnDefTokens, 11⟩) ∧
    ((⟨.FunctionDefinition, ⟨"f".toList, .function_of (.fundamental .Int)⟩,
        [ASTNode.mk .Void .Void 0 none (some (ASTNode.mk .IdentifierRef .Void 0 none none))]⟩ :
        ExternalDeclaration).type = ExternalDeclarationType.FunctionDefinition ↔
      ∃ obj l₁,
        parse_up_to_declarator 30 ⟨fnDefTokens, 0⟩ (Scope.mk [] [] none) = .ok (obj, l₁) ∧
        obj.ctype.fundamental_type = FundamentalType.Function ∧
        (get_current_token l₁).type = TokenType.LBrace) :=
  ⟨rfl,
   translation_unit_function_definition_dispatch.2.2 30 ⟨fnDefTokens, 0⟩
     (Scope.mk [] [] none)
     ⟨.FunctionDefinition, ⟨"f".toList, .function_of (.fundamental .Int)⟩,
      [ASTNode.mk .Void .Void 0 none (some (ASTNode.mk .IdentifierRef .Void 0 none none))]⟩
     ⟨fnDefTokens, 11⟩ rfl⟩

/-- Claim C6 (code_bug evidence): `parse_jump_statement` raises its
"Expected identifier after goto" diagnostic on every goto statement — the
valid `goto L;` included — because the token-consuming statement placed
before the switch's first case label is unreachable and the check runs
against the `goto` keyword token itself. -/
theorem goto_always_errors_expected_identifier :
    parse_jump_statement
      ⟨[⟨.GoTo, "goto".toList⟩, ⟨.Identifier, "L".toList⟩, ⟨.Semicolon, ";".toList⟩], 0⟩
      (Scope.mk [] [] none) =
      .error (.ErrorToken "Expected identifier after goto\n".toList) ∧
    parse_jump_statement
      ⟨[⟨.GoTo, "goto".toList⟩, ⟨.Number, "5".toList⟩, ⟨.Semicolon, ";".toList⟩], 0⟩
      (Scope.mk [] [] none) =
      .error (.ErrorToken "Expected identifier after goto\n".toList) := ⟨rfl, rfl⟩

/-- Counterexample for claim C7: `_Atomic` satisfies two of the five
category predicates at once (type qualifier and type specifier), and with
typedef `T` in scope the folding of `int T ;` classifies `T` as a specifier
and folds it even though the keyword type specifier `int` already matched
earlier in the same sequence — the claim's exactly-one-category and
no-typedef-after-keyword conditions both fail. -/
theorem specifier_categories_counterexample :
    token_is_type_qualifier ⟨.Atomic, "_Atomic".toList⟩ = true ∧
    token_is_type_specifier ⟨.Atomic, "_Atomic".toList⟩ (Scope.mk [] [] none) = true ∧
    (parse_declaration_specifiers
        ⟨[⟨.Int, "int".toList⟩, ⟨.Identifier, "T".toList⟩, ⟨.Semicolon, ";".toList⟩], 0⟩
        (Scope.mk [] ["T".toList] none)).1.specifiers =
      [⟨.Int, "int".toList⟩, ⟨.Identifier, "T".toList⟩] := ⟨rfl, rfl, rfl⟩

theorem parse_declaration_specifiers_loop_eq (scope : Scope) :
    ∀ (remaining : Nat) (d : DeclarationSpecifierFlags) (l : Lexer),
    remaining = l.tokens.length - l.index →
    parse_declaration_specifiers_loop scope d l remaining =
      (⟨d.specifiers ++ ((l.tokens.drop l.index).takeWhile
          (fun t => token_is_declaration_specifier t scope))⟩,
       ⟨l.tokens, l.index + ((l.tokens.drop l.index).takeWhile
          (fun t => token_is_declaration_specifier t scope)).length⟩) := by
  intro remaining
  induction remaining with
  | zero =>
    intro d l h
    have hle : l.tokens.length ≤ l.index := Nat.le_of_sub_eq_zero h.symm
    rw [List.drop_eq_nil_of_le hle]
    simp [parse_declaration_specifiers_loop]
  | succ r ih =>
    intro d l h
    have hlt : l.index < l.tokens.length := by omega
    have hcur : get_current_token l = l.tokens[l.index] :=
      List.getD_eq_getElem l.tokens eofToken hlt
    have hdrop : l.tokens.drop l.index = l.tokens[l.index] :: l.tokens.drop (l.index + 1) :=
      List.drop_eq_getElem_cons hlt
    rw [parse_declaration_specifiers_loop, hcur, hdrop, List.takeWhile_cons]
    cases hval : token_is_declaration_specifier l.tokens[l.index] scope with
    | true =>
      simp only [hval, if_pos, if_true]
      have hr : r = (l.advance).tokens.length - (l.advance).index := by
        simp only [Lexer.advance]; omega
      have h2 := ih (update_declaration (l.tokens[l.index]) d) l.advance hr
      simp only [Lexer.advance] at h2
      rw [get_next_token]
      simp only [Lexer.advance]
      rw [h2]
      simp [update_declaration, Prod.mk.injEq, List.append_assoc]
      omega
    | false =>
      simp only [hval, Bool.false_eq_true, if_false]
      simp [parse_declaration_specifiers_loop]

/-- Claim C7 as amended: specifier folding classifies each token by the
disjunction of the five category predicates — a predicate of the token and
the scope alone, under which a token may satisfy several categories
(`_Atomic` is both a qualifier and a specifier) and a typedef name counts
whenever it is in the scope chain, independent of what matched earlier —
and stops at the first token matching no category: the folded tokens are
exactly the longest specifier prefix of the remaining input, and the cursor
stops on the first non-specifier token. -/
theorem declaration_specifier_folding (l : Lexer) (scope : Scope) :
    parse_declaration_specifiers l scope =
      (⟨(l.tokens.drop l.index).takeWhile
          (fun t => token_is_declaration_specifier t scope)⟩,
       ⟨l.tokens, l.index + ((l.tokens.drop l.index).takeWhile
          (fun t => token_is_declaration_specifier t scope)).length⟩) :=
  parse_declaration_specifiers_loop_eq scope (l.tokens.length - l.index) ⟨[]⟩ l rfl

/-- Claim C9 (code_bug evidence): an identifier primary expression is handed
to `parse_number` by the fall-through in `parse_primary_expression`'s
switch, and aborts on `parse_number`'s number-token assertion, while a
numeric constant in the same position parses normally. -/
theorem identifier_primary_expression_hits_number_assert :
    parse_primary_expression
      ⟨[⟨.Equals, "=".toList⟩, ⟨.Identifier, "x".toList⟩], 0⟩ (Scope.mk [] [] none) =
      .error (.AssertFailed "Parsing number but initial token type is not number".toList) ∧
    parse_primary_expression
      ⟨[⟨.Equals, "=".toList⟩, ⟨.Number, "7".toList⟩], 0⟩ (Scope.mk [] [] none) =
      .ok (ASTNode.mk .NumericConstant .Int 7 none none,
           ⟨[⟨.Equals, "=".toList⟩, ⟨.Number, "7".toList⟩], 2⟩) := ⟨rfl, rfl⟩

/-- Claim C10 (confirmed): `parse_statement` decides the statement form from
the current token's kind alone; an identifier is routed to the
labeled-statement parser whatever the following tokens are — in particular
the expression statement `x = 1;` takes the labeled-statement path. -/
theorem statement_identifier_routes_to_labeled :
    statement_dispatch TokenType.Identifier = StatementRoute.Labeled ∧
    ∀ (fuel : Nat) (l : Lexer) (scope : Scope),
      (get_current_token l).type = TokenType.Identifier →
      parse_statement (fuel + 1) l scope = parse_labeled_statement l scope := by
  refine ⟨rfl, ?_⟩
  intro fuel l scope h
  rw [parse_statement, h]
  rfl

/-- Witness for claim C10: on the token stream of `x = 1;` the statement
parser runs the labeled-statement parser. -/
theorem statement_identifier_routes_to_labeled_witness :
    parse_statement 5
      ⟨[⟨.Identifier, "x".toList⟩, ⟨.Equals, "=".toList⟩, ⟨.Number, "1".toList⟩,
        ⟨.Semicolon, ";".toList⟩], 0⟩ (Scope.mk [] [] none) =
      parse_labeled_statement
        ⟨[⟨.Identifier, "x".toList⟩, ⟨.Equals, "=".toList⟩, ⟨.Number, "1".toList⟩,
          ⟨.Semicolon, ";".toList⟩], 0⟩ (Scope.mk [] [] none) :=
  statement_identifier_routes_to_labeled.2 4
    ⟨[⟨.Identifier, "x".toList⟩, ⟨.Equals, "=".toList⟩, ⟨.Number, "1".toList⟩,
      ⟨.Semicolon, ";".toList⟩], 0⟩ (Scope.mk [] [] none) rfl

end Miniclang
